/-
Verification of the card-management module
(`backend/routes/api/card_management.py`) against its design
specification.

The module's pure core is embedded shallowly:
* `hash_to_numeric`  — SHA-256 of the UTF-8 bytes of a string, read as a
  big-endian integer and rendered in decimal (Python:
  `str(int(hashlib.sha256(s.encode()).hexdigest(), 16))`).
* folder-path normalization used by `create_flashcard` and
  `move_flashcard_set`.
* the four route handlers, as pure functions over an explicit store.

The persistence collaborator (`database.database`) is not part of the
sources under verification; it is modelled from the specification (§6) as
a flat string-addressed document store with point `get`/`save`.
-/
import Mathlib

set_option maxRecDepth 100000

namespace CardManagement

/-! ## 32-bit word arithmetic (Python ints truncated to the SHA-256 word size) -/

/-- Truncate to a 32-bit word. -/
def w32 (n : Nat) : Nat := n % 4294967296

/-- 32-bit modular addition. -/
def add32 (x y : Nat) : Nat := (x + y) % 4294967296

/-- 32-bit right rotation. -/
def rotr32 (n x : Nat) : Nat := ((x >>> n) ||| (x <<< (32 - n))) % 4294967296

/-- 32-bit bitwise complement. -/
def notw (x : Nat) : Nat := 4294967295 ^^^ (x % 4294967296)

/-! ## SHA-256 (FIPS 180-4), the digest algorithm behind `hash_to_numeric` -/

/-- SHA-256 round constants (fractional parts of cube roots of the first 64 primes). -/
def k256 : List Nat :=
  [1116352408, 1899447441, 3049323471, 3921009573, 961987163, 1508970993,
   2453635748, 2870763221, 3624381080, 310598401, 607225278, 1426881987,
   1925078388, 2162078206, 2614888103, 3248222580, 3835390401, 4022224774,
   264347078, 604807628, 770255983, 1249150122, 1555081692, 1996064986,
   2554220882, 2821834349, 2952996808, 3210313671, 3336571891, 3584528711,
   113926993, 338241895, 666307205, 773529912, 1294757372, 1396182291,
   1695183700, 1986661051, 2177026350, 2456956037, 2730485921, 2820302411,
   3259730800, 3345764771, 3516065817, 3600352804, 4094571909, 275423344,
   430227734, 506948616, 659060556, 883997877, 958139571, 1322822218,
   1537002063, 1747873779, 1955562222, 2024104815, 2227730452, 2361852424,
   2428436474, 2756734187, 3204031479, 3329325298]

/-- The SHA-256 compression state: eight 32-bit working words. -/
structure Hash8 where
  a : Nat
  b : Nat
  c : Nat
  d : Nat
  e : Nat
  f : Nat
  g : Nat
  h : Nat

/-- SHA-256 initial hash value (fractional parts of square roots of the first 8 primes). -/
def initH : Hash8 :=
  ⟨1779033703, 3144134277, 1013904242, 2773480762,
   1359893119, 2600822924, 528734635, 1541459225⟩

def bigSigma0 (x : Nat) : Nat := rotr32 2 x ^^^ rotr32 13 x ^^^ rotr32 22 x

def bigSigma1 (x : Nat) : Nat := rotr32 6 x ^^^ rotr32 11 x ^^^ rotr32 25 x

def smallSigma0 (x : Nat) : Nat := rotr32 7 x ^^^ rotr32 18 x ^^^ (x >>> 3)

def smallSigma1 (x : Nat) : Nat := rotr32 17 x ^^^ rotr32 19 x ^^^ (x >>> 10)

def chW (x y z : Nat) : Nat := (x &&& y) ^^^ (notw x &&& z)

def majW (x y z : Nat) : Nat := (x &&& y) ^^^ (x &&& z) ^^^ (y &&& z)

/-- SHA-256 message padding: append `0x80`, zeros, and the 64-bit big-endian
bit length, reaching a multiple of 64 bytes. -/
def padBytes (msg : List Nat) : List Nat :=
  let L := msg.length
  let k := (119 - L % 64) % 64
  let bitLen := 8 * L
  msg ++ 128 :: List.replicate k 0
      ++ (List.range 8).map (fun i => (bitLen >>> (8 * (7 - i))) % 256)

/-- Group bytes into big-endian 32-bit words. -/
def bytesToWords : List Nat → List Nat
  | b0 :: b1 :: b2 :: b3 :: rest =>
      (((b0 * 256 + b1) * 256 + b2) * 256 + b3) :: bytesToWords rest
  | _ => []

/-- Split a word list into successive 16-word blocks (fuel-driven). -/
def splitBlocks : Nat → List Nat → List (List Nat)
  | 0, _ => []
  | _, [] => []
  | fuel + 1, ws => ws.take 16 :: splitBlocks fuel (ws.drop 16)

/-- Extend a 16-word block to the 64-word message schedule. -/
def schedExtend : Nat → List Nat → List Nat
  | 0, ws => ws
  | fuel + 1, ws =>
      let t := ws.length
      let w := add32 (add32 (smallSigma1 (ws.getD (t - 2) 0)) (ws.getD (t - 7) 0))
                     (add32 (smallSigma0 (ws.getD (t - 15) 0)) (ws.getD (t - 16) 0))
      schedExtend fuel (ws ++ [w])

/-- One SHA-256 compression round, fed one `(K, W)` pair. -/
def shaRound (st : Hash8) (kw : Nat × Nat) : Hash8 :=
  let t1 := add32 (add32 (add32 st.h (bigSigma1 st.e)) (add32 (chW st.e st.f st.g) kw.1)) kw.2
  let t2 := add32 (bigSigma0 st.a) (majW st.a st.b st.c)
  ⟨add32 t1 t2, st.a, st.b, st.c, add32 st.d t1, st.e, st.f, st.g⟩

/-- Process one 512-bit block: 64 rounds, then add into the chaining value. -/
def processBlock (H : Hash8) (block : List Nat) : Hash8 :=
  let W := schedExtend 48 block
  let st := (k256.zip W).foldl shaRound H
  ⟨add32 H.a st.a, add32 H.b st.b, add32 H.c st.c, add32 H.d st.d,
   add32 H.e st.e, add32 H.f st.f, add32 H.g st.g, add32 H.h st.h⟩

/-- SHA-256 digest of a byte sequence, read as one big-endian 256-bit natural
number — exactly the value of Python's `int(hashlib.sha256(msg).hexdigest(), 16)`. -/
def sha256Nat (msg : List Nat) : Nat :=
  let ws := bytesToWords (padBytes msg)
  let fin := (splitBlocks ws.length ws).foldl processBlock initH
  let m := 4294967296
  (((((((fin.a % m) * m + fin.b % m) * m + fin.c % m) * m + fin.d % m) * m
      + fin.e % m) * m + fin.f % m) * m + fin.g % m) * m + fin.h % m

/-! ## UTF-8 encoding (Python `str.encode()`) -/

/-- UTF-8 bytes of one code point. -/
def charUtf8 (c : Char) : List Nat :=
  let n := c.toNat
  if n < 128 then [n]
  else if n < 2048 then [192 + n / 64, 128 + n % 64]
  else if n < 65536 then [224 + n / 4096, 128 + n / 64 % 64, 128 + n % 64]
  else [240 + n / 262144, 128 + n / 4096 % 64, 128 + n / 64 % 64, 128 + n % 64]

/-- UTF-8 bytes of a string. -/
def utf8Encode (s : String) : List Nat :=
  s.data.foldr (fun c acc => charUtf8 c ++ acc) []

/-! ## Decimal rendering (Python `str` on a non-negative `int`) -/

/-- The decimal digit character for `m % 10`. -/
def digitChar (m : Nat) : Char := Char.ofNat (48 + m % 10)

/-- Accumulate decimal digits most-significant first (fuel-driven; fuel `n + 1`
always suffices). -/
def natToStrAux : Nat → Nat → List Char → List Char
  | 0, _, acc => acc
  | fuel + 1, n, acc =>
      if n < 10 then digitChar n :: acc
      else natToStrAux fuel (n / 10) (digitChar n :: acc)

/-- Decimal string of a natural number, as Python's `str` renders it:
no sign, no padding, `"0"` for zero. -/
def natToStr (n : Nat) : String := String.mk (natToStrAux (n + 1) n [])

/-! ## `hash_to_numeric` (source lines 13–24) -/

/-- `hash_to_numeric`: SHA-256 the UTF-8 encoding of the input, convert the
hex digest to an integer, return its decimal string. Deterministic by
construction. -/
def hash_to_numeric (input_string : String) : String :=
  natToStr (sha256Nat (utf8Encode input_string))

/-! ## JSON-shaped documents and the persistence collaborator -/

/-- A JSON-shaped document, as stored and served by the module. -/
inductive Doc where
  | bool : Bool → Doc
  | num : Nat → Doc
  | str : String → Doc
  | arr : List Doc → Doc
  | obj : List (String × Doc) → Doc

/-- Modelled from the spec: the persistence layer (`database.database`, not
under the verified sources) is, per §6, a key-value store of JSON-shaped
documents addressed by `/`-delimited strings, with point reads and writes.
A store is the list of writes, most recent first. -/
abbrev Store := List (String × Doc)

/-- Modelled from the spec: `get(address) -> document | absent` — the most
recent write at exactly this address, if any. -/
def Store.get (st : Store) (addr : String) : Option Doc :=
  match st with
  | [] => none
  | (a, d) :: rest => if a = addr then some d else Store.get rest addr

/-- Modelled from the spec: `put(address, document)` — an unconditional point
write at exactly this address. -/
def Store.save (st : Store) (addr : String) (d : Doc) : Store :=
  (addr, d) :: st

/-- Python `dict` membership/lookup on a JSON object's fields
(`flashcard_data[flashcard_id]`). -/
def lookupKey (entries : List (String × Doc)) (k : String) : Option Doc :=
  match entries with
  | [] => none
  | (a, d) :: rest => if a = k then some d else lookupKey rest k

/-- Python `dict.pop(k, None)` on a copy: the object without field `k`
(`edited_flashcard_data`). -/
def removeKey (entries : List (String × Doc)) (k : String) : List (String × Doc) :=
  entries.filter (fun p => decide (p.1 ≠ k))

/-- An HTTP-level outcome: a JSON response with a status code, or an uncaught
Python exception surfacing outside the handler. -/
inductive HttpResult where
  | resp : Doc → Nat → HttpResult
  | exn : HttpResult

/-! ## Folder-path normalization (source lines 88–90 and 218–221) -/

/-- Python `s.endswith("/")`: the string is non-empty and its last character
is the separator. -/
def endsWithSlash (s : String) : Bool :=
  decide (s.data.getLast? = some '/')

/-- `create_flashcard`'s normalization (lines 89–90): append a separator
whenever the path does not already end with one — including the empty path. -/
def createNormalize (folder : String) : String :=
  if endsWithSlash folder then folder else folder ++ "/"

/-- `move_flashcard_set`'s normalization (lines 218–221): append a separator
when the path does not end with one and is non-empty. -/
def moveNormalize (location : String) : String :=
  if endsWithSlash location = false ∧ location ≠ "" then location ++ "/" else location

/-! ## `create_flashcard` (source lines 82–106, after request validation) -/

/-- The address `create_flashcard` reads and writes (lines 92, 95–96):
`"/users/" + userID + "/flashcards/" + folder + flashcard_id`, with the id
hashed from `userID + folder + flashcardName` over the normalized folder. -/
def createAddr (user_id folder flashcard_name : String) : String :=
  "/users/" ++ user_id ++ "/flashcards/" ++ createNormalize folder
    ++ hash_to_numeric (user_id ++ createNormalize folder ++ flashcard_name)

/-- The document `create_flashcard` stores (lines 96–103). -/
def createDoc (user_id folder flashcard_name flashcard_description : String)
    (cards : Doc) : Doc :=
  Doc.obj
    [("flashcardID", Doc.str (hash_to_numeric (user_id ++ createNormalize folder ++ flashcard_name))),
     ("flashcardName", Doc.str flashcard_name),
     ("flashcardDescription", Doc.str flashcard_description),
     ("cards", cards)]

/-- The response of `create_flashcard` (lines 105–106): Flask's
`jsonify({"success": True}, 200)` serializes both arguments into one JSON
array, returned with status 200 — identically on both branches. -/
def createResponse : HttpResult :=
  HttpResult.resp (Doc.arr [Doc.obj [("success", Doc.bool true)], Doc.num 200]) 200

/-- `create_flashcard` (lines 82–106): normalize the folder, hash the id,
write the set document only when nothing is stored at the computed address,
and answer with the fixed success response either way. -/
def create_flashcard (st : Store) (user_id flashcard_name flashcard_description : String)
    (cards : Doc) (folder : String) : HttpResult × Store :=
  match Store.get st (createAddr user_id folder flashcard_name) with
  | none =>
      (createResponse,
       Store.save st (createAddr user_id folder flashcard_name)
         (createDoc user_id folder flashcard_name flashcard_description cards))
  | some _ => (createResponse, st)

/-! ## `get_flashcard` (source lines 136–141, after request validation) -/

/-- `get_flashcard` (lines 136–141): hash `userID + flashcardName` — no
folder — and read `"/users/" + userID + "/flashcards/" + flashcard_id`; the
route returns the fetched document (JSON `null` when absent). -/
def get_flashcard (st : Store) (user_id flashcard_name : String) : Option Doc :=
  Store.get st ("/users/" ++ user_id ++ "/flashcards/"
    ++ hash_to_numeric (user_id ++ flashcard_name))

/-! ## `get_today_cards` (source lines 175–183, after request validation) -/

/-- `get_today_cards` (lines 175–183): read the whole per-user hierarchy; when
absent answer `jsonify(["User has no flashcards"])` (status 200), otherwise
answer the due-card list. `FlashcardCollection` (`classes.card_collection`) is
not under the verified sources, so the §4.3 walker is taken as the parameter
`today_card_list`; no claim depends on its value. -/
def get_today_cards (today_card_list : Doc → List Doc) (st : Store)
    (user_id : String) : HttpResult :=
  match Store.get st ("/users/" ++ user_id ++ "/flashcards") with
  | none => HttpResult.resp (Doc.arr [Doc.str "User has no flashcards"]) 200
  | some flashcards => HttpResult.resp (Doc.arr (today_card_list flashcards)) 200

/-! ## `move_flashcard_set` (source lines 212–243, after request validation) -/

/-- The source-folder address `move_flashcard_set` reads and rewrites
(lines 224, 234): `"/users/" + userID + "/flashcards/" + currentLocation`
over the normalized location. -/
def folderAddr (user_id location : String) : String :=
  "/users/" ++ user_id ++ "/flashcards/" ++ moveNormalize location

/-- The destination address of the moved set (lines 237–238):
`"/users/" + userID + "/flashcards/" + moveLocation + flashcardID`. -/
def moveDestAddr (user_id move_location flashcard_id : String) : String :=
  folderAddr user_id move_location ++ flashcard_id

/-- The 400 error body of `move_flashcard_set` (lines 226–229). -/
def moveErrBody (user_id current_location flashcard_id : String) : Doc :=
  Doc.obj [("error", Doc.str ("The flashcard set at " ++ folderAddr user_id current_location
    ++ flashcard_id ++ " does not exist"))]

/-- The 200 success body of `move_flashcard_set` (lines 240–243). -/
def moveOkBody (user_id current_location flashcard_id move_location : String) : Doc :=
  Doc.obj [("success", Doc.str ("The flashcard set at " ++ folderAddr user_id current_location
    ++ flashcard_id ++ " has been moved to " ++ moveNormalize move_location))]

/-- `move_flashcard_set` (lines 212–243): read the source folder document (a
mapping id → set document); answer 400 when it is absent or lacks the id;
when the folder document is not a mapping, Python's `.keys()` raises and the
request dies with an uncaught exception; otherwise save the mapping without
the id back at the source address, then save the set document at the
destination address, and answer 200. -/
def move_flashcard_set (st : Store) (user_id flashcard_id move_location current_location : String) :
    HttpResult × Store :=
  match Store.get st (folderAddr user_id current_location) with
  | none =>
      (HttpResult.resp (moveErrBody user_id current_location flashcard_id) 400, st)
  | some (Doc.obj entries) =>
      match lookupKey entries flashcard_id with
      | none =>
          (HttpResult.resp (moveErrBody user_id current_location flashcard_id) 400, st)
      | some setDoc =>
          let st1 := Store.save st (folderAddr user_id current_location)
            (Doc.obj (removeKey entries flashcard_id))
          let st2 := Store.save st1 (moveDestAddr user_id move_location flashcard_id) setDoc
          (HttpResult.resp (moveOkBody user_id current_location flashcard_id move_location) 200, st2)
  | some _ => (HttpResult.exn, st)

/-- The store as `move_flashcard_set` leaves it after its first persistence
write (line 234, removing the set from the source folder document) and before
its second (line 238, saving the set at the destination) — the state visible
if execution is interrupted between the two writes. `none` when the move does
not reach the writes. -/
def move_flashcard_set_between_writes (st : Store)
    (user_id flashcard_id move_location current_location : String) : Option Store :=
  match Store.get st (folderAddr user_id current_location) with
  | none => none
  | some (Doc.obj entries) =>
      match lookupKey entries flashcard_id with
      | none => none
      | some _ =>
          some (Store.save st (folderAddr user_id current_location)
            (Doc.obj (removeKey entries flashcard_id)))
  | some _ => none

/-! ## String facts -/

lemma data_append (s t : String) : (s ++ t).data = s.data ++ t.data := by
  cases s; cases t; rfl

lemma eq_of_data (s t : String) (h : s.data = t.data) : s = t := by
  cases s; cases t; exact congrArg String.mk h

lemma data_ne_nil (s : String) (h : s ≠ "") : s.data ≠ [] := by
  intro hd
  exact h (eq_of_data s "" hd)

lemma mem_of_getLast_eq : ∀ (l : List Char) (x : Char), l.getLast? = some x → x ∈ l := by
  intro l
  induction l with
  | nil => intro x h; exact absurd h (by simp)
  | cons a rest ih =>
      intro x h
      cases rest with
      | nil =>
          simp only [List.getLast?_singleton, Option.some.injEq] at h
          simp [h]
      | cons b r =>
          rw [List.getLast?_cons_cons] at h
          exact List.mem_cons_of_mem _ (ih x h)

lemma endsWithSlash_append (a b : String) (hb : b ≠ "") :
    endsWithSlash (a ++ b) = endsWithSlash b := by
  unfold endsWithSlash
  rw [data_append, List.getLast?_append_of_ne_nil _ (data_ne_nil b hb)]

lemma endsWithSlash_concat_slash (a : String) : endsWithSlash (a ++ "/") = true := by
  rw [endsWithSlash_append a "/" (by decide)]
  rfl

/-! ## Decimal-string facts -/

lemma digitChar_toNat (m : Nat) : (digitChar m).toNat = 48 + m % 10 := by
  have h : m % 10 < 10 := Nat.mod_lt _ (by omega)
  unfold digitChar
  set k := m % 10 with hk
  interval_cases k <;> decide

lemma digitChar_bounds (m : Nat) : 48 ≤ (digitChar m).toNat ∧ (digitChar m).toNat ≤ 57 := by
  rw [digitChar_toNat]
  have h : m % 10 < 10 := Nat.mod_lt _ (by omega)
  omega

lemma natToStrAux_succ (f n : Nat) (acc : List Char) :
    natToStrAux (f + 1) n acc
      = if n < 10 then digitChar n :: acc
        else natToStrAux f (n / 10) (digitChar n :: acc) := rfl

lemma natToStrAux_digits (fuel : Nat) :
    ∀ n acc, (∀ c ∈ acc, 48 ≤ c.toNat ∧ c.toNat ≤ 57) →
      ∀ c ∈ natToStrAux fuel n acc, 48 ≤ c.toNat ∧ c.toNat ≤ 57 := by
  induction fuel with
  | zero => intro n acc hacc; simpa [natToStrAux] using hacc
  | succ f ih =>
      intro n acc hacc c hc
      rw [natToStrAux_succ] at hc
      by_cases hn : n < 10
      · rw [if_pos hn] at hc
        rcases List.mem_cons.mp hc with h | h
        · rw [h]; exact digitChar_bounds n
        · exact hacc c h
      · rw [if_neg hn] at hc
        refine ih (n / 10) (digitChar n :: acc) ?_ c hc
        intro c' hc'
        rcases List.mem_cons.mp hc' with h | h
        · rw [h]; exact digitChar_bounds n
        · exact hacc c' h

lemma natToStr_digits (n : Nat) :
    ∀ c ∈ (natToStr n).data, 48 ≤ c.toNat ∧ c.toNat ≤ 57 :=
  natToStrAux_digits (n + 1) n [] (by intro c hc; exact absurd hc (by simp))

lemma natToStrAux_len_lower : ∀ fuel n acc, acc.length + 1 ≤ (natToStrAux (fuel + 1) n acc).length := by
  intro fuel
  induction fuel with
  | zero =>
      intro n acc
      rw [natToStrAux_succ]
      by_cases hn : n < 10
      · rw [if_pos hn]; simp
      · rw [if_neg hn]; simp [natToStrAux]
  | succ f ih =>
      intro n acc
      rw [natToStrAux_succ]
      by_cases hn : n < 10
      · rw [if_pos hn]; simp
      · rw [if_neg hn]
        have := ih (n / 10) (digitChar n :: acc)
        simp only [List.length_cons] at this
        omega

lemma natToStr_length_pos (n : Nat) : 1 ≤ (natToStr n).length := by
  have := natToStrAux_len_lower n n []
  simpa [natToStr, String.length] using this

lemma natToStrAux_len_upper (fuel : Nat) :
    ∀ n acc d, 1 ≤ d → n < 10 ^ d →
      (natToStrAux fuel n acc).length ≤ acc.length + d := by
  induction fuel with
  | zero => intro n acc d hd _; simp [natToStrAux]
  | succ f ih =>
      intro n acc d hd hn
      rw [natToStrAux_succ]
      by_cases h10 : n < 10
      · rw [if_pos h10]; simp; omega
      · rw [if_neg h10]
        have hd2 : 2 ≤ d := by
          rcases Nat.lt_or_ge d 2 with h | h
          · exfalso
            have hd1 : d = 1 := by omega
            rw [hd1] at hn
            simp at hn
            omega
          · exact h
        have hpow : 10 ^ d = 10 ^ (d - 1) * 10 := by
          conv_lhs => rw [← Nat.sub_add_cancel hd]
          rw [pow_succ]
        have hdiv : n / 10 < 10 ^ (d - 1) := by
          rw [Nat.div_lt_iff_lt_mul (by omega)]
          omega
        have := ih (n / 10) (digitChar n :: acc) (d - 1) (by omega) hdiv
        simp only [List.length_cons] at this
        omega

lemma natToStr_length_le (n d : Nat) (hd : 1 ≤ d) (hn : n < 10 ^ d) :
    (natToStr n).length ≤ d := by
  have := natToStrAux_len_upper (n + 1) n [] d hd hn
  simpa [natToStr, String.length] using this

/-! ## The digest is a 256-bit value, so the decimal id has at most 78 digits -/

lemma mulAdd_lt {a b A : Nat} (ha : a < A) (hb : b < 4294967296) :
    a * 4294967296 + b < A * 4294967296 := by
  calc a * 4294967296 + b < a * 4294967296 + 4294967296 := by omega
    _ = (a + 1) * 4294967296 := by ring
    _ ≤ A * 4294967296 := Nat.mul_le_mul_right _ (Nat.succ_le_of_lt ha)

lemma sha256Nat_lt (msg : List Nat) : sha256Nat msg < 2 ^ 256 := by
  unfold sha256Nat
  set fin := (splitBlocks (bytesToWords (padBytes msg)).length
    (bytesToWords (padBytes msg))).foldl processBlock initH with hfin
  have hmod : ∀ x : Nat, x % 4294967296 < 4294967296 := fun x => Nat.mod_lt _ (by omega)
  have h1 : fin.a % 4294967296 < 4294967296 := hmod _
  have h2 := mulAdd_lt h1 (hmod fin.b)
  have h3 := mulAdd_lt h2 (hmod fin.c)
  have h4 := mulAdd_lt h3 (hmod fin.d)
  have h5 := mulAdd_lt h4 (hmod fin.e)
  have h6 := mulAdd_lt h5 (hmod fin.f)
  have h7 := mulAdd_lt h6 (hmod fin.g)
  have h8 := mulAdd_lt h7 (hmod fin.h)
  calc _ < 4294967296 * 4294967296 * 4294967296 * 4294967296 * 4294967296
            * 4294967296 * 4294967296 * 4294967296 := h8
    _ = 2 ^ 256 := by norm_num

/-- The decimal id contains no separator character. -/
lemma hash_no_slash (s : String) : '/' ∉ (hash_to_numeric s).data := by
  intro hmem
  have hb := (natToStr_digits (sha256Nat (utf8Encode s)) '/' hmem).1
  have h47 : ('/' : Char).toNat = 47 := rfl
  omega

/-! ## Address facts -/

lemma slash_mem_createNormalize (f : String) : '/' ∈ (createNormalize f).data := by
  unfold createNormalize
  by_cases h : endsWithSlash f
  · rw [if_pos h]
    unfold endsWithSlash at h
    exact mem_of_getLast_eq f.data '/' (of_decide_eq_true h)
  · rw [if_neg h, data_append]
    simp

lemma moveNormalize_eq_empty_or_slash (loc : String) :
    moveNormalize loc = "" ∨ endsWithSlash (moveNormalize loc) = true := by
  unfold moveNormalize
  by_cases h : endsWithSlash loc = false ∧ loc ≠ ""
  · rw [if_pos h]
    right
    exact endsWithSlash_concat_slash loc
  · rw [if_neg h]
    cases hb : endsWithSlash loc with
    | true => right; rfl
    | false =>
        left
        by_contra hne
        exact h ⟨hb, hne⟩

lemma append_empty_str (s : String) : s ++ "" = s := by
  apply eq_of_data
  rw [data_append]
  simp

lemma endsWithSlash_folderAddr (u loc : String) : endsWithSlash (folderAddr u loc) = true := by
  unfold folderAddr
  rcases moveNormalize_eq_empty_or_slash loc with h | h
  · rw [h, append_empty_str, endsWithSlash_append ("/users/" ++ u) "/flashcards/" (by decide)]
    decide
  · have hne : moveNormalize loc ≠ "" := by
      intro he
      rw [he] at h
      exact absurd h (by decide)
    rw [endsWithSlash_append _ _ hne]
    exact h

lemma destAddr_ne_folderAddr (u mv cur id : String) (h1 : id ≠ "")
    (h2 : endsWithSlash id = false) : moveDestAddr u mv id ≠ folderAddr u cur := by
  intro he
  have hd : endsWithSlash (moveDestAddr u mv id) = false := by
    unfold moveDestAddr
    rw [endsWithSlash_append _ _ h1]
    exact h2
  rw [he, endsWithSlash_folderAddr] at hd
  exact absurd hd (by decide)

/-- The address `get_flashcard` reads is never the address `create_flashcard`
writes: the latter always carries a folder segment ending in a separator,
while the id hashes are pure digit strings. -/
lemma createAddr_ne_getAddr (u folder name oname : String) :
    createAddr u folder name
      ≠ "/users/" ++ u ++ "/flashcards/" ++ hash_to_numeric oname := by
  intro he
  have hd := congrArg String.data he
  unfold createAddr at hd
  simp only [data_append, List.append_assoc] at hd
  have h1 := List.append_cancel_left hd
  have h2 := List.append_cancel_left h1
  have h3 := List.append_cancel_left h2
  have hmem : '/' ∈ (createNormalize folder).data
      ++ (hash_to_numeric (u ++ createNormalize folder ++ name)).data :=
    List.mem_append_left _ (slash_mem_createNormalize folder)
  rw [h3] at hmem
  exact hash_no_slash oname hmem

/-! ## Store and object facts -/

lemma Store.get_save_self (st : Store) (a : String) (d : Doc) :
    Store.get (Store.save st a d) a = some d := by
  simp [Store.get, Store.save]

lemma Store.get_save_ne (st : Store) (a b : String) (d : Doc) (h : a ≠ b) :
    Store.get (Store.save st a d) b = Store.get st b := by
  simp [Store.get, Store.save, h]

lemma lookupKey_removeKey (es : List (String × Doc)) (k : String) :
    lookupKey (removeKey es k) k = none := by
  induction es with
  | nil => rfl
  | cons p rest ih =>
      by_cases h : p.1 = k
      · simpa [removeKey, List.filter_cons, h] using ih
      · simpa [removeKey, List.filter_cons, h, lookupKey] using ih

/-! ## Unfolding the handlers branch by branch -/

lemma create_fst (st : Store) (u n d folder : String) (cards : Doc) :
    (create_flashcard st u n d cards folder).1 = createResponse := by
  unfold create_flashcard
  cases Store.get st (createAddr u folder n) <;> rfl

lemma create_snd_absent (st : Store) (u n d folder : String) (cards : Doc)
    (h : Store.get st (createAddr u folder n) = none) :
    (create_flashcard st u n d cards folder).2
      = Store.save st (createAddr u folder n) (createDoc u folder n d cards) := by
  unfold create_flashcard
  rw [h]

lemma create_snd_present (st : Store) (u n d folder : String) (cards : Doc) (d0 : Doc)
    (h : Store.get st (createAddr u folder n) = some d0) :
    (create_flashcard st u n d cards folder).2 = st := by
  unfold create_flashcard
  rw [h]

lemma move_none_eq (st : Store) (u id mv cur : String)
    (hf : Store.get st (folderAddr u cur) = none) :
    move_flashcard_set st u id mv cur
      = (HttpResult.resp (moveErrBody u cur id) 400, st) := by
  unfold move_flashcard_set
  rw [hf]

lemma move_nokey_eq (st : Store) (u id mv cur : String) (es : List (String × Doc))
    (hf : Store.get st (folderAddr u cur) = some (Doc.obj es))
    (hm : lookupKey es id = none) :
    move_flashcard_set st u id mv cur
      = (HttpResult.resp (moveErrBody u cur id) 400, st) := by
  unfold move_flashcard_set
  rw [hf]
  simp only []
  rw [hm]

lemma move_success_eq (st : Store) (u id mv cur : String) (es : List (String × Doc)) (d : Doc)
    (hf : Store.get st (folderAddr u cur) = some (Doc.obj es))
    (hm : lookupKey es id = some d) :
    move_flashcard_set st u id mv cur
      = (HttpResult.resp (moveOkBody u cur id mv) 200,
         Store.save (Store.save st (folderAddr u cur) (Doc.obj (removeKey es id)))
           (moveDestAddr u mv id) d) := by
  unfold move_flashcard_set
  rw [hf]
  simp only []
  rw [hm]

lemma between_writes_eq (st : Store) (u id mv cur : String) (es : List (String × Doc)) (d : Doc)
    (hf : Store.get st (folderAddr u cur) = some (Doc.obj es))
    (hm : lookupKey es id = some d) :
    move_flashcard_set_between_writes st u id mv cur
      = some (Store.save st (folderAddr u cur) (Doc.obj (removeKey es id))) := by
  unfold move_flashcard_set_between_writes
  rw [hf]
  simp only []
  rw [hm]

/-! ## The claims -/

/-- Claim C1: the spec requires the removal of the set from the source folder
document and the write at the destination to be atomic — on interruption
between the two writes the set must be recoverable at exactly one of the two
locations, never at neither. The code is a plain two-write sequence: evaluated
on a store holding set `"42"` in folder `"a"`, the state between the two
writes has the set absent from the re-saved source folder document and nothing
at the destination address — neither location holds it, contradicting the
required guarantee. -/
theorem claim_C1_move_not_atomic :
    move_flashcard_set_between_writes
        [("/users/u/flashcards/a/", Doc.obj [("42", Doc.str "payload")])] "u" "42" "b" "a"
      = some [("/users/u/flashcards/a/", Doc.obj []),
              ("/users/u/flashcards/a/", Doc.obj [("42", Doc.str "payload")])] ∧
    Store.get [("/users/u/flashcards/a/", Doc.obj []),
               ("/users/u/flashcards/a/", Doc.obj [("42", Doc.str "payload")])]
        "/users/u/flashcards/b/42" = none ∧
    Store.get [("/users/u/flashcards/a/", Doc.obj []),
               ("/users/u/flashcards/a/", Doc.obj [("42", Doc.str "payload")])]
        "/users/u/flashcards/a/" = some (Doc.obj []) ∧
    lookupKey ([] : List (String × Doc)) "42" = none :=
  ⟨rfl, rfl, rfl, rfl⟩

/-- Claim C2 counterexample: the claim says the create result tells the caller
whether a write occurred. On an empty store the create writes (the store grows
to one entry); on a store already holding a document at the computed address
it does not write (the store is returned unchanged); yet both calls return the
very same response, so the result cannot indicate whether a write occurred. -/
theorem claim_C2_counterexample :
    (create_flashcard [] "u" "n" "d" (Doc.arr []) "f").1
      = (create_flashcard [(createAddr "u" "f" "n", Doc.str "existing")]
          "u" "n" "d" (Doc.arr []) "f").1 ∧
    ((create_flashcard [] "u" "n" "d" (Doc.arr []) "f").2).length = 1 ∧
    (create_flashcard [(createAddr "u" "f" "n", Doc.str "existing")]
        "u" "n" "d" (Doc.arr []) "f").2
      = [(createAddr "u" "f" "n", Doc.str "existing")] :=
  ⟨rfl, rfl, rfl⟩

/-- Claim C2 amended: `create_flashcard` writes the set document at its
computed address only if no document exists there — but its response is one
fixed success value on both branches, so the caller is not told whether a
write occurred. -/
theorem claim_C2_amended (st : Store) (u n d folder : String) (cards : Doc) :
    (create_flashcard st u n d cards folder).1 = createResponse ∧
    (Store.get st (createAddr u folder n) = none →
      (create_flashcard st u n d cards folder).2
        = Store.save st (createAddr u folder n) (createDoc u folder n d cards)) ∧
    ∀ d0, Store.get st (createAddr u folder n) = some d0 →
      (create_flashcard st u n d cards folder).2 = st :=
  ⟨create_fst st u n d folder cards,
   fun h => create_snd_absent st u n d folder cards h,
   fun d0 h => create_snd_present st u n d folder cards d0 h⟩

/-- Witness for the amended C2: both hypotheses discharged on concrete
stores — the empty store (a write occurs) and a store already holding a
document at the computed address (no write occurs). -/
theorem claim_C2_witness :
    (create_flashcard [] "u" "n" "d" (Doc.arr []) "f").2
      = Store.save [] (createAddr "u" "f" "n") (createDoc "u" "f" "n" "d" (Doc.arr [])) ∧
    (create_flashcard [(createAddr "u" "f" "n", Doc.str "pre")] "u" "n" "d" (Doc.arr []) "f").2
      = [(createAddr "u" "f" "n", Doc.str "pre")] :=
  ⟨(claim_C2_amended [] "u" "n" "d" "f" (Doc.arr [])).2.1 rfl,
   (claim_C2_amended [(createAddr "u" "f" "n", Doc.str "pre")] "u" "n" "d" "f"
      (Doc.arr [])).2.2 (Doc.str "pre") rfl⟩

/-- Claim C3: for an existing set (present under its id in the source folder
document), a successful move answers 200, a read at the destination address
returns the very set document that was stored under that id before the move
(all fields, the id included, byte-identical), and the source folder document
afterwards no longer contains the id. The destination address carries the same
unchanged id. The id hypotheses (non-empty, not ending in the separator) hold
for every id `hash_to_numeric` produces, digit strings being separator-free. -/
theorem claim_C3_move_preserves (st : Store) (u id mv cur : String)
    (es : List (String × Doc)) (d : Doc)
    (hf : Store.get st (folderAddr u cur) = some (Doc.obj es))
    (hm : lookupKey es id = some d)
    (h1 : id ≠ "") (h2 : endsWithSlash id = false) :
    (move_flashcard_set st u id mv cur).1 = HttpResult.resp (moveOkBody u cur id mv) 200 ∧
    Store.get (move_flashcard_set st u id mv cur).2 (moveDestAddr u mv id) = some d ∧
    Store.get (move_flashcard_set st u id mv cur).2 (folderAddr u cur)
      = some (Doc.obj (removeKey es id)) ∧
    lookupKey (removeKey es id) id = none := by
  rw [move_success_eq st u id mv cur es d hf hm]
  refine ⟨rfl, Store.get_save_self _ _ _, ?_, lookupKey_removeKey es id⟩
  rw [Store.get_save_ne _ _ _ _ (destAddr_ne_folderAddr u mv cur id h1 h2)]
  exact Store.get_save_self _ _ _

/-- Witness for C3 at a concrete store: set `"42"` moved from folder `"a"` to
folder `"b"`. -/
theorem claim_C3_witness :
    (move_flashcard_set [("/users/u/flashcards/a/", Doc.obj [("42", Doc.str "p")])]
        "u" "42" "b" "a").1 = HttpResult.resp (moveOkBody "u" "a" "42" "b") 200 ∧
    Store.get (move_flashcard_set [("/users/u/flashcards/a/", Doc.obj [("42", Doc.str "p")])]
        "u" "42" "b" "a").2 (moveDestAddr "u" "b" "42") = some (Doc.str "p") ∧
    Store.get (move_flashcard_set [("/users/u/flashcards/a/", Doc.obj [("42", Doc.str "p")])]
        "u" "42" "b" "a").2 (folderAddr "u" "a")
      = some (Doc.obj (removeKey [("42", Doc.str "p")] "42")) ∧
    lookupKey (removeKey [("42", Doc.str "p")] "42") "42" = none :=
  claim_C3_move_preserves [("/users/u/flashcards/a/", Doc.obj [("42", Doc.str "p")])]
    "u" "42" "b" "a" [("42", Doc.str "p")] (Doc.str "p") rfl rfl (by decide) rfl

/-- Claim C4: `get_flashcard` hashes only owner ++ name and reads an address
without a folder segment, while `create_flashcard` stores under an id hashed
from owner ++ normalized folder ++ name at an address containing the folder
segment (never empty — at minimum the lone separator). The two addresses can
never coincide, so a get after a create reads a location the create never
wrote: over any store the create leaves `get_flashcard`'s answer unchanged,
and from the empty store the get returns absent, never the created document. -/
theorem claim_C4_get_misses_created (st : Store) (u folder name d : String) (cards : Doc) :
    get_flashcard ((create_flashcard st u name d cards folder).2) u name
      = get_flashcard st u name ∧
    get_flashcard ((create_flashcard [] u name d cards folder).2) u name = none := by
  have key : ∀ st0 : Store,
      get_flashcard ((create_flashcard st0 u name d cards folder).2) u name
        = get_flashcard st0 u name := by
    intro st0
    cases hget : Store.get st0 (createAddr u folder name) with
    | none =>
        rw [create_snd_absent st0 u name d folder cards hget]
        unfold get_flashcard
        exact Store.get_save_ne _ _ _ _ (createAddr_ne_getAddr u folder name (u ++ name))
    | some d0 =>
        rw [create_snd_present st0 u name d folder cards d0 hget]
  exact ⟨key st, (key []).trans rfl⟩

/-- Claim C5: creation never overwrites — with nothing at the computed address,
the first create stores its payload there, and a second create with the same
owner, folder and name (any other description and cards) leaves the store
completely unchanged, so exactly one document, the first call's, is stored. -/
theorem claim_C5_first_write_wins (st : Store) (u n d1 d2 folder : String)
    (cards1 cards2 : Doc)
    (h0 : Store.get st (createAddr u folder n) = none) :
    Store.get (create_flashcard st u n d1 cards1 folder).2 (createAddr u folder n)
      = some (createDoc u folder n d1 cards1) ∧
    (create_flashcard (create_flashcard st u n d1 cards1 folder).2
        u n d2 cards2 folder).2
      = (create_flashcard st u n d1 cards1 folder).2 := by
  have hA : Store.get (create_flashcard st u n d1 cards1 folder).2 (createAddr u folder n)
      = some (createDoc u folder n d1 cards1) := by
    rw [create_snd_absent st u n d1 folder cards1 h0]
    exact Store.get_save_self _ _ _
  exact ⟨hA, create_snd_present _ u n d2 folder cards2 _ hA⟩

/-- Witness for C5 from the empty store with two distinct payloads. -/
theorem claim_C5_witness :
    Store.get (create_flashcard [] "u" "n" "d1" (Doc.str "c1") "f").2 (createAddr "u" "f" "n")
      = some (createDoc "u" "f" "n" "d1" (Doc.str "c1")) ∧
    (create_flashcard (create_flashcard [] "u" "n" "d1" (Doc.str "c1") "f").2
        "u" "n" "d2" (Doc.str "c2") "f").2
      = (create_flashcard [] "u" "n" "d1" (Doc.str "c1") "f").2 :=
  claim_C5_first_write_wins [] "u" "n" "d1" "d2" "f" (Doc.str "c1") (Doc.str "c2") rfl

/-- Claim C6 counterexample: the claim says an empty or root folder becomes
the empty path and any non-empty path ends with exactly one separator. In the
code, create turns the empty folder into a lone separator (not the empty
path), move leaves the root folder `"/"` as is (not the empty path), and both
leave `"a//"` with its two trailing separators. -/
theorem claim_C6_counterexample :
    createNormalize "" = "/" ∧ moveNormalize "/" = "/" ∧
    createNormalize "a//" = "a//" ∧ moveNormalize "a//" = "a//" :=
  ⟨rfl, rfl, rfl, rfl⟩

/-- Claim C6 amended: move maps the empty path to the empty path while create
maps it to a lone separator; a path not already ending in a separator gains
exactly one in both operations; a path already ending in separators (the root
included) is used unchanged, so create's result always ends in at least one —
not exactly one — separator. -/
theorem claim_C6_amended (f : String) :
    moveNormalize "" = "" ∧ createNormalize "" = "/" ∧
    endsWithSlash (createNormalize f) = true ∧
    (endsWithSlash f = false → f ≠ "" →
      moveNormalize f = f ++ "/" ∧ createNormalize f = f ++ "/") ∧
    (endsWithSlash f = true → moveNormalize f = f ∧ createNormalize f = f) := by
  refine ⟨rfl, rfl, ?_, ?_, ?_⟩
  · unfold createNormalize
    by_cases h : endsWithSlash f
    · rw [if_pos h]; exact h
    · rw [if_neg h]; exact endsWithSlash_concat_slash f
  · intro h1 h2
    constructor
    · unfold moveNormalize; rw [if_pos ⟨h1, h2⟩]
    · unfold createNormalize
      rw [if_neg (by rw [h1]; exact (by decide))]
  · intro h
    constructor
    · unfold moveNormalize
      rw [if_neg (by rintro ⟨ha, _⟩; rw [h] at ha; exact absurd ha (by decide))]
    · unfold createNormalize; rw [if_pos h]

/-- Witness for the amended C6 at concrete paths `"a"` and `"x/"`. -/
theorem claim_C6_witness :
    (moveNormalize "a" = "a" ++ "/" ∧ createNormalize "a" = "a" ++ "/") ∧
    (moveNormalize "x/" = "x/" ∧ createNormalize "x/" = "x/") :=
  ⟨(claim_C6_amended "a").2.2.2.1 rfl (by decide),
   (claim_C6_amended "x/").2.2.2.2 rfl⟩

/-- Claim C7 counterexample: the claim says a user with no stored hierarchy
receives an explicit empty-collection result. The code instead answers a
singleton array holding the message string — a non-empty collection, distinct
from the empty array. -/
theorem claim_C7_counterexample :
    get_today_cards (fun _ => []) [] "u"
      = HttpResult.resp (Doc.arr [Doc.str "User has no flashcards"]) 200 ∧
    Doc.arr [Doc.str "User has no flashcards"] ≠ Doc.arr [] := by
  refine ⟨rfl, ?_⟩
  intro h
  injection h with h2
  exact List.cons_ne_nil _ _ h2

/-- Claim C7 amended: for a user whose hierarchy is absent, `get_today_cards`
answers a fixed sentinel — a singleton array with the message string — at
status 200: a non-error result distinguishable from an error, though not an
empty collection. -/
theorem claim_C7_amended (walk : Doc → List Doc) (st : Store) (u : String)
    (h : Store.get st ("/users/" ++ u ++ "/flashcards") = none) :
    get_today_cards walk st u
      = HttpResult.resp (Doc.arr [Doc.str "User has no flashcards"]) 200 ∧
    ∀ b n, get_today_cards walk st u = HttpResult.resp b n → n = 200 := by
  have he : get_today_cards walk st u
      = HttpResult.resp (Doc.arr [Doc.str "User has no flashcards"]) 200 := by
    unfold get_today_cards
    rw [h]
  refine ⟨he, fun b n hbn => ?_⟩
  rw [he] at hbn
  injection hbn with hb hn
  exact hn.symm

/-- Witness for the amended C7 on a store with unrelated content but no
hierarchy for user `"u"`. -/
theorem claim_C7_witness :
    get_today_cards (fun _ => []) [("/users/v/flashcards", Doc.str "x")] "u"
      = HttpResult.resp (Doc.arr [Doc.str "User has no flashcards"]) 200 ∧
    ∀ b n, get_today_cards (fun _ => []) [("/users/v/flashcards", Doc.str "x")] "u"
      = HttpResult.resp b n → n = 200 :=
  claim_C7_amended (fun _ => []) [("/users/v/flashcards", Doc.str "x")] "u" rfl

/-- Claim C8: over stores whose folder documents are mappings (the data
model's shape), the move answers its 400 "does not exist" error exactly when
the source folder document is absent or does not contain the id, and on that
error the store is returned untouched — the error precedes any write. -/
theorem claim_C8_notfound_iff (st : Store) (u id mv cur : String)
    (hwf : ∀ d0, Store.get st (folderAddr u cur) = some d0 → ∃ es, d0 = Doc.obj es) :
    (((move_flashcard_set st u id mv cur).1 = HttpResult.resp (moveErrBody u cur id) 400)
      ↔ (Store.get st (folderAddr u cur) = none ∨
          ∀ es, Store.get st (folderAddr u cur) = some (Doc.obj es)
            → lookupKey es id = none)) ∧
    (((move_flashcard_set st u id mv cur).1 = HttpResult.resp (moveErrBody u cur id) 400)
      → (move_flashcard_set st u id mv cur).2 = st) := by
  cases hget : Store.get st (folderAddr u cur) with
  | none =>
      rw [move_none_eq st u id mv cur hget]
      exact ⟨⟨fun _ => Or.inl rfl, fun _ => rfl⟩, fun _ => rfl⟩
  | some d0 =>
      obtain ⟨es, rfl⟩ := hwf d0 hget
      cases hm : lookupKey es id with
      | none =>
          rw [move_nokey_eq st u id mv cur es hget hm]
          refine ⟨⟨fun _ => Or.inr ?_, fun _ => rfl⟩, fun _ => rfl⟩
          intro es2 he
          injection he with he2
          injection he2 with he3
          rw [← he3]
          exact hm
      | some dd =>
          rw [move_success_eq st u id mv cur es dd hget hm]
          constructor
          · constructor
            · intro hL
              exfalso
              injection hL with hb hs
              exact absurd hs (by decide)
            · intro hR
              exfalso
              rcases hR with hnone | hall
              · exact absurd hnone (by simp)
              · have hx := hall es rfl
                rw [hm] at hx
                exact absurd hx (by simp)
          · intro hL
            exfalso
            injection hL with hb hs
            exact absurd hs (by decide)

/-- Witness for C8 on the empty store: the folder document is absent, the move
answers the 400 error, and the store is unchanged. -/
theorem claim_C8_witness :
    (((move_flashcard_set [] "u" "42" "b" "a").1
        = HttpResult.resp (moveErrBody "u" "a" "42") 400)
      ↔ (Store.get [] (folderAddr "u" "a") = none ∨
          ∀ es, Store.get [] (folderAddr "u" "a") = some (Doc.obj es)
            → lookupKey es "42" = none)) ∧
    (((move_flashcard_set [] "u" "42" "b" "a").1
        = HttpResult.resp (moveErrBody "u" "a" "42") 400)
      → (move_flashcard_set [] "u" "42" "b" "a").2 = []) :=
  claim_C8_notfound_iff [] "u" "42" "b" "a" (fun d0 h => nomatch h)

/-- Claim C9 counterexample: the claim says all inputs yield id strings of one
fixed length. The empty string hashes to a 78-digit id while `"a"` hashes to a
77-digit one. -/
theorem claim_C9_counterexample :
    (hash_to_numeric "").length = 78 ∧ (hash_to_numeric "a").length = 77 :=
  ⟨rfl, rfl⟩

/-- Claim C9 amended: `hash_to_numeric` returns a non-empty decimal digit
string of at most 78 characters (the decimal rendering of a 256-bit digest,
without leading-zero padding) — the length is bounded, not fixed. -/
theorem claim_C9_amended (s : String) :
    1 ≤ (hash_to_numeric s).length ∧ (hash_to_numeric s).length ≤ 78 ∧
    (hash_to_numeric s).data.all
      (fun c => decide (48 ≤ c.toNat) && decide (c.toNat ≤ 57)) = true := by
  refine ⟨natToStr_length_pos _, ?_, ?_⟩
  · exact natToStr_length_le _ 78 (by omega)
      (lt_of_lt_of_le (sha256Nat_lt _) (by norm_num))
  · rw [List.all_eq_true]
    intro c hc
    have hb := natToStr_digits (sha256Nat (utf8Encode s)) c hc
    simp [hb.1, hb.2]

/-- Claim C10: when a document already sits at the destination address, a
successful move overwrites it unconditionally with the moved set document — no
existence check, no first-write-wins rule. -/
theorem claim_C10_overwrite (st : Store) (u id mv cur : String)
    (es : List (String × Doc)) (d e0 : Doc)
    (hf : Store.get st (folderAddr u cur) = some (Doc.obj es))
    (hm : lookupKey es id = some d)
    (hold : Store.get st (moveDestAddr u mv id) = some e0) :
    (move_flashcard_set st u id mv cur).1 = HttpResult.resp (moveOkBody u cur id mv) 200 ∧
    Store.get (move_flashcard_set st u id mv cur).2 (moveDestAddr u mv id) = some d := by
  rw [move_success_eq st u id mv cur es d hf hm]
  exact ⟨rfl, Store.get_save_self _ _ _⟩

/-- Witness for C10: the destination address already holds `"old"`, and after
the move it holds the moved set document. -/
theorem claim_C10_witness :
    (move_flashcard_set [("/users/u/flashcards/a/", Doc.obj [("42", Doc.str "p")]),
        ("/users/u/flashcards/b/42", Doc.str "old")] "u" "42" "b" "a").1
      = HttpResult.resp (moveOkBody "u" "a" "42" "b") 200 ∧
    Store.get (move_flashcard_set [("/users/u/flashcards/a/", Doc.obj [("42", Doc.str "p")]),
        ("/users/u/flashcards/b/42", Doc.str "old")] "u" "42" "b" "a").2
      (moveDestAddr "u" "b" "42") = some (Doc.str "p") :=
  claim_C10_overwrite
    [("/users/u/flashcards/a/", Doc.obj [("42", Doc.str "p")]),
     ("/users/u/flashcards/b/42", Doc.str "old")]
    "u" "42" "b" "a" [("42", Doc.str "p")] (Doc.str "p") (Doc.str "old") rfl rfl rfl

end CardManagement
